import Mathlib

/-!
Shallow embedding of `src/server.py` (FastAPI handler `processar_documento`):
data model, aggregation, markdown-fence stripping, base64 encoding, request
assembly, and the request pipeline with its top-level exception handler.
Python numbers are modelled as rationals, Python exceptions as `Except` with
the exception message as a `String`.
-/

instance [DecidableEq ε] [DecidableEq α] : DecidableEq (Except ε α) := fun x y =>
  match x, y with
  | .ok a, .ok b => if h : a = b then .isTrue (by rw [h]) else .isFalse (by simp [h])
  | .error a, .error b => if h : a = b then .isTrue (by rw [h]) else .isFalse (by simp [h])
  | .ok _, .error _ => .isFalse (by simp)
  | .error _, .ok _ => .isFalse (by simp)

/-- A raw per-student record as parsed from the external service's text
(`json.loads` output): fields `nome_aluno`, `frequencias`, `notas`. -/
structure StudentRecord where
  nome_aluno : String
  frequencias : List ℚ
  notas : List ℚ
deriving DecidableEq

/-- One entry of the response `payload`: fields `nome`, `media_frequencia`,
`media_notas` (built at server.py lines 171-177). -/
structure Resumo where
  nome : String
  media_frequencia : ℚ
  media_notas : ℚ
deriving DecidableEq

/-- Round to the nearest integer, ties to even: the rounding Python's
built-in `round` uses (banker's rounding), modelled on ℚ. -/
def roundHalfEven (x : ℚ) : ℤ :=
  let n := ⌊x⌋
  let r := x - (n : ℚ)
  if r < 1 / 2 then n
  else if (1 / 2 : ℚ) < r then n + 1
  else if n % 2 = 0 then n else n + 1

/-- Python's `round(x, 2)`: round to 2 decimal places, ties to even. -/
def pyRound2 (x : ℚ) : ℚ := (roundHalfEven (x * 100) : ℚ) / 100

/-- One conditional-expression mean from server.py lines 174-175:
`round(sum(vals) / len(vals), 2) if guard else 0`, where `guard` is the
truthiness of `sum(aluno["frequencias"])`.  Dividing by `len(vals) == 0`
raises Python's `ZeroDivisionError` ("division by zero"). -/
def mediaField (guard : ℚ) (vals : List ℚ) : Except String ℚ :=
  if guard ≠ 0 then
    if vals.length = 0 then .error "division by zero"
    else .ok (pyRound2 (vals.sum / (vals.length : ℚ)))
  else .ok 0

/-- The aggregation for one student (the loop body, server.py lines 170-177):
both means are guarded by the truthiness of `sum(aluno["frequencias"])`. -/
def resumoDe (aluno : StudentRecord) : Except String Resumo := do
  let mf ← mediaField aluno.frequencias.sum aluno.frequencias
  let mn ← mediaField aluno.frequencias.sum aluno.notas
  pure { nome := aluno.nome_aluno, media_frequencia := mf, media_notas := mn }

/-- `for aluno in campos_formatados: ... append(resumo)`: sequential,
order-preserving, and an exception in an iteration aborts the whole loop. -/
def mapExcept (f : α → Except ε β) : List α → Except ε (List β)
  | [] => .ok []
  | a :: as => do
    let b ← f a
    let bs ← mapExcept f as
    pure (b :: bs)

/-- Python's `s.replace(pat, "")` for a pattern `pat`: scan left to right,
drop each (non-overlapping) occurrence of `pat`.  Fuelled so it reduces in
the kernel; the fuel is the length of the scanned list. -/
def replaceAux (pat : List Char) : ℕ → List Char → List Char
  | _, [] => []
  | 0, s => s
  | fuel + 1, c :: rest =>
    if pat.isPrefixOf (c :: rest) && !pat.isEmpty then
      replaceAux pat fuel (rest.drop (pat.length - 1))
    else c :: replaceAux pat fuel rest

/-- `s.replace(pat, "")` on Lean strings. -/
def pyReplaceEmpty (s pat : String) : String := ⟨replaceAux pat.data s.data.length s.data⟩

/-- Whether `pat` occurs as a contiguous substring of `s`. -/
def containsSub (pat : List Char) : List Char → Bool
  | [] => pat.isEmpty
  | c :: rest => pat.isPrefixOf (c :: rest) || containsSub pat rest

/-- The markdown-fence stripping of server.py lines 163-165:
`campos.replace("```json\n", "").replace("\n```", "")`. -/
def stripMarkdown (campos : String) : String :=
  pyReplaceEmpty (pyReplaceEmpty campos "```json\n") "\n```"


/-- The standard base64 alphabet, as `base64.b64encode` uses it. -/
def b64alphabet : List Char :=
  ['A','B','C','D','E','F','G','H','I','J','K','L','M','N','O','P','Q','R','S','T',
   'U','V','W','X','Y','Z','a','b','c','d','e','f','g','h','i','j','k','l','m','n',
   'o','p','q','r','s','t','u','v','w','x','y','z','0','1','2','3','4','5','6','7',
   '8','9','+','/']

/-- The character encoding a 6-bit group. -/
def b64char (n : ℕ) : Char := b64alphabet.getD n 'A'

/-- The 6-bit group encoded by a base64 character. -/
def b64dec (c : Char) : ℕ := b64alphabet.indexOf c

/-- `base64.b64encode` on a byte list: 3 bytes become 4 alphabet characters;
a final group of 1 or 2 bytes is padded with `=`. -/
def b64encodeList : List ℕ → List Char
  | [] => []
  | [a] => [b64char (a / 4), b64char (a % 4 * 16), '=', '=']
  | [a, b] => [b64char (a / 4), b64char (a % 4 * 16 + b / 16), b64char (b % 16 * 4), '=']
  | a :: b :: c :: rest =>
    b64char (a / 4) :: b64char (a % 4 * 16 + b / 16) :: b64char (b % 16 * 4 + c / 64) ::
      b64char (c % 64) :: b64encodeList rest

/-- Standard base64 decoding of a well-formed encoding: each 4-character
group yields 3 bytes, or fewer at the end according to the `=` padding. -/
def b64decodeList : List Char → List ℕ
  | c1 :: c2 :: c3 :: c4 :: rest =>
    if c3 = '=' then [b64dec c1 * 4 + b64dec c2 / 16]
    else if c4 = '=' then [b64dec c1 * 4 + b64dec c2 / 16, b64dec c2 % 16 * 16 + b64dec c3 / 4]
    else (b64dec c1 * 4 + b64dec c2 / 16) :: (b64dec c2 % 16 * 16 + b64dec c3 / 4) ::
      (b64dec c3 % 4 * 64 + b64dec c4) :: b64decodeList rest
  | _ => []

/-- `base64.b64encode(conteudo).decode("utf-8")` (server.py line 94). -/
def b64encodeStr (conteudo : List ℕ) : String := ⟨b64encodeList conteudo⟩

/-- Decode the base64 string back to bytes. -/
def b64decodeStr (s : String) : List ℕ := b64decodeList s.data


/-- The fixed extraction prompt (server.py lines 114-138), a process-wide
constant sent verbatim as the text part of every request. -/
def PROMPT_EXTRACAO : String :=
  "\n                            Você está recebendo um documeto relativo à notas finais do semestre de uma faculdade.\n                            Cada página do documento contém notas de dois estudantes, o que pode ser visto na primeira coluna \"Nome do Aluno\".\n                            A primeira metade da página pra cima é do aluno X, e a segunda metade da página pra baixo é do aluno Y\n                            Retorne para mim os seguintes dados formatados assim:\n                            [\n                                \x7b\n                                    \"nome_aluno\": nome,\n                                    \"frequencias\": frequencias,\n                                    \"notas\" : [nota, nota, nota, ...]\n                                \x7d,\n                                \x7b\n                                    \"nome_aluno\": nome,\n                                    \"frequencias\": [frequencia, frequencia, frequencia, ...],\n                                    \"notas\" : [nota, nota, nota, ...]\n                                \x7d,\n                            ]\n                            O campo \"nome_aluno\" você deve resgatar da coluna \"Nome do Aluno\"\n                            O campo \"frequencias\" você deve retornar todos os valores inteiros da coluna \"% de Freq.\" (campos que contém \x27-\x27, ou seja, que não são números, colocar como 100).\n                            O campo \"notas\" me retorne todos os valores inteiros da coluna \"AF\" (5 colunas à direita da coluna \"% de Freq.\" que você acabou de atualizar)\n                            \n                            Preste atenção na coluna \"Resultado Final\". Caso o resultado seja \"EVADIDO\", colocar os campos \"frequencias\" e \"notas\" como [0] (array com um único campo 0).\n\n                            Faça isso para tanto o aluno X quanto o aluno Y de cada página, e não retorne nenhum texto adicional além do resultado passado no formato que especifiquei.\n                        "

/-- One item of the `parts` list of the Gemini request. -/
inductive Parte where
  | inline_data (mime_type : String) (data : String)
  | text (s : String)
deriving DecidableEq

/-- The Gemini request body (server.py lines 103-143): a single-field
object `contents` holding one content, itself a list of `parts`. -/
structure GeminiPayload where
  contents : List (List Parte)
deriving DecidableEq

/-- Request assembly: the inline-data part carries the declared content type
verbatim and the base64 string; the text part is the fixed prompt. -/
def montarPayload (content_type : String) (arquivo_base64 : String) : GeminiPayload :=
  ⟨[[Parte.inline_data content_type arquivo_base64, Parte.text PROMPT_EXTRACAO]]⟩

/-- What the external call yields when `requests.post` itself does not raise:
the HTTP status, the raw body text, and the (fallible) result of
`resposta.json()["candidates"][0]["content"]["parts"][0]["text"]`. -/
structure RespostaGemini where
  status_code : ℤ
  text : String
  json_navigate : Except String String

/-- The uploaded file: its declared content type.  (The bytes are delivered
by `await arquivo.read()`, modelled as an effect outcome below.) -/
structure Arquivo where
  content_type : String

/-- The environment of one request: the outcome of each effectful step of
the pipeline.  `json_loads` is the (deterministic) `json.loads` library
call composed with the extraction of the per-student fields; `excel_write`
is the outcome of the `pd.ExcelWriter` block; `timestamp` is
`datetime.now().strftime("%Y%m%d_%H%M%S")`. -/
structure Effects where
  read_result : Except String (List ℕ)
  post_result : Except String RespostaGemini
  json_loads : String → Except String (List StudentRecord)
  excel_write : Except String Unit
  timestamp : String

/-- The success envelope (server.py line 168): `payload` and `dados_brutos`. -/
structure Retorno where
  payload : List Resumo
  dados_brutos : List StudentRecord
deriving DecidableEq

/-- What the route returns: either the plain `retorno` dict (HTTP 200) or a
`JSONResponse` with a status code and string-valued fields in order. -/
inductive HandlerResult where
  | ok (retorno : Retorno)
  | jsonError (status_code : ℕ) (content : List (String × String))
deriving DecidableEq

/-- A run of the handler: the response plus the spreadsheet paths whose
write was attempted. -/
structure Outcome where
  response : HandlerResult
  writeAttempts : List String
deriving DecidableEq

/-- The fixed message of the non-200 error envelope (server.py line 153). -/
def ERRO_GEMINI : String := "Erro ao processar imagem no Gemini"

/-- Lift a step's exception into the try-block's exception type (message
plus the write attempts made so far — none before the export step). -/
def lift0 : Except String α → Except (String × List String) α
  | .ok a => .ok a
  | .error e => .error (e, [])

/-- The body of the `try` block (server.py lines 91-198), step by step in
source order.  An `.error` is a Python exception escaping the `try` body;
an `.ok` is a `return` (either the non-200 error response or `retorno`). -/
def corpoTry (arquivo : Arquivo) (eff : Effects) :
    Except (String × List String) (HandlerResult × List String) := do
  let conteudo ← lift0 eff.read_result
  let arquivo_base64 := b64encodeStr conteudo
  let _payload := montarPayload arquivo.content_type arquivo_base64
  let resposta ← lift0 eff.post_result
  if resposta.status_code ≠ 200 then
    pure (.jsonError 500 [("erro", ERRO_GEMINI), ("detalhe", resposta.text)], [])
  else do
    let campos ← lift0 resposta.json_navigate
    let campos_formatados ← lift0 (eff.json_loads (stripMarkdown campos))
    let payloadList ← lift0 (mapExcept resumoDe campos_formatados)
    let retorno : Retorno := ⟨payloadList, campos_formatados⟩
    let nome_arquivo := "notas_alunos_" ++ eff.timestamp ++ ".xlsx"
    let caminho_arquivo := "/app/" ++ nome_arquivo
    match eff.excel_write with
    | .error e => throw (e, [caminho_arquivo])
    | .ok _ => pure (.ok retorno, [caminho_arquivo])

/-- The whole route handler `processar_documento`: the `try` body wrapped in
the catch-all `except Exception as e` (server.py lines 200-201), which turns
any exception into a 500 `JSONResponse` whose content is the single
field `Erro` holding `str(e)`. -/
def processar_documento (arquivo : Arquivo) (eff : Effects) : Outcome :=
  match corpoTry arquivo eff with
  | .ok (resp, w) => ⟨resp, w⟩
  | .error (e, w) => ⟨.jsonError 500 [("Erro", e)], w⟩


/-- A request environment whose file read raises. -/
def effLeituraFalha : Effects :=
  ⟨.error "boom", .ok ⟨200, "", .ok ""⟩, fun _ => .ok [], .ok (), "20250101_000000"⟩

/-- A request environment whose external call returns HTTP 429. -/
def effNon200 : Effects :=
  ⟨.ok [1], .ok ⟨429, "Resource has been exhausted", .ok ""⟩, fun _ => .ok [], .ok (),
    "20250101_000000"⟩

/-- A request environment whose external call returns HTTP 403. -/
def effNon200b : Effects :=
  ⟨.ok [2], .ok ⟨403, "Forbidden", .ok ""⟩, fun _ => .ok [], .ok (), "20250101_000000"⟩

/-- A request environment whose extracted text is not JSON, so that
`json.loads` raises. -/
def effLoadsFalha : Effects :=
  ⟨.ok [1], .ok ⟨200, "", .ok "oops"⟩, fun _ => .error "Expecting value: line 1 column 1 (char 0)",
    .ok (), "20250101_000000"⟩

/-- A request environment for a fully successful run: one parsed record. -/
def effSucesso : Effects :=
  ⟨.ok [1], .ok ⟨200, "", .ok "x"⟩, fun _ => .ok [⟨"A", [0], [0]⟩], .ok (), "20250101_000000"⟩

/-- A request environment whose spreadsheet write succeeds. -/
def effEscritaOk : Effects :=
  ⟨.ok [1], .ok ⟨200, "", .ok "[]"⟩, fun _ => .ok [], .ok (), "20250101_000000"⟩

/-- The same environment except that the spreadsheet write raises. -/
def effEscritaFalha : Effects := { effEscritaOk with excel_write := .error "Permission denied" }

theorem b64dec_b64char : ∀ n : ℕ, n < 64 → b64dec (b64char n) = n := by decide

theorem b64char_ne_pad : ∀ n : ℕ, n < 64 → b64char n ≠ '=' := by decide

/-- Decoding inverts encoding on byte lists (fuel-indexed induction). -/
theorem b64decode_encode_aux :
    ∀ (n : ℕ) (bs : List ℕ), bs.length ≤ n → (∀ x ∈ bs, x < 256) →
      b64decodeList (b64encodeList bs) = bs := by
  intro n
  induction n with
  | zero =>
    intro bs hl _
    have hbs : bs = [] := List.length_eq_zero.mp (Nat.le_zero.mp hl)
    subst hbs
    rfl
  | succ n ih =>
    intro bs hl hb
    rcases bs with _ | ⟨a, _ | ⟨b, _ | ⟨c, rest⟩⟩⟩
    · rfl
    · have ha : a < 256 := hb a (by simp)
      have h1 : b64dec (b64char (a / 4)) = a / 4 := b64dec_b64char _ (by omega)
      have h2 : b64dec (b64char (a % 4 * 16)) = a % 4 * 16 := b64dec_b64char _ (by omega)
      simp [b64encodeList, b64decodeList, h1, h2]
      omega
    · have ha : a < 256 := hb a (by simp)
      have hb2 : b < 256 := hb b (by simp)
      have h1 : b64dec (b64char (a / 4)) = a / 4 := b64dec_b64char _ (by omega)
      have h2 : b64dec (b64char (a % 4 * 16 + b / 16)) = a % 4 * 16 + b / 16 :=
        b64dec_b64char _ (by omega)
      have h3 : b64dec (b64char (b % 16 * 4)) = b % 16 * 4 := b64dec_b64char _ (by omega)
      have hp : b64char (b % 16 * 4) ≠ '=' := b64char_ne_pad _ (by omega)
      simp [b64encodeList, b64decodeList, h1, h2, h3, hp]
      omega
    · have ha : a < 256 := hb a (by simp)
      have hb2 : b < 256 := hb b (by simp)
      have hc : c < 256 := hb c (by simp)
      have h1 : b64dec (b64char (a / 4)) = a / 4 := b64dec_b64char _ (by omega)
      have h2 : b64dec (b64char (a % 4 * 16 + b / 16)) = a % 4 * 16 + b / 16 :=
        b64dec_b64char _ (by omega)
      have h3 : b64dec (b64char (b % 16 * 4 + c / 64)) = b % 16 * 4 + c / 64 :=
        b64dec_b64char _ (by omega)
      have h4 : b64dec (b64char (c % 64)) = c % 64 := b64dec_b64char _ (by omega)
      have hp3 : b64char (b % 16 * 4 + c / 64) ≠ '=' := b64char_ne_pad _ (by omega)
      have hp4 : b64char (c % 64) ≠ '=' := b64char_ne_pad _ (by omega)
      have hrest : b64decodeList (b64encodeList rest) = rest := by
        refine ih rest ?_ fun x hx => hb x (by simp [hx])
        simp at hl
        omega
      simp [b64encodeList, b64decodeList, h1, h2, h3, h4, hp3, hp4, hrest]
      omega

/-- Decoding inverts encoding, for any byte list. -/
theorem b64decode_encode (bs : List ℕ) (hb : ∀ x ∈ bs, x < 256) :
    b64decodeStr (b64encodeStr bs) = bs :=
  b64decode_encode_aux bs.length bs le_rfl hb

/-- If the pattern never occurs, the replacement scan leaves the list alone
(for any fuel). -/
theorem replaceAux_of_not_contains (pat : List Char) :
    ∀ (s : List Char), containsSub pat s = false → ∀ fuel, replaceAux pat fuel s = s := by
  intro s
  induction s with
  | nil =>
    intro _ fuel
    cases fuel <;> rfl
  | cons c rest ih =>
    intro h fuel
    have h' : pat.isPrefixOf (c :: rest) = false ∧ containsSub pat rest = false := by
      simpa [containsSub] using h
    cases fuel with
    | zero => rfl
    | succ fuel => simp [replaceAux, h'.1, ih h'.2 fuel]

/-- A string containing neither fence marker passes through the stripper
unchanged. -/
theorem stripMarkdown_of_no_marker (s : String)
    (h1 : containsSub "```json\n".data s.data = false)
    (h2 : containsSub "\n```".data s.data = false) :
    stripMarkdown s = s := by
  obtain ⟨l⟩ := s
  simp only [stripMarkdown, pyReplaceEmpty]
  rw [replaceAux_of_not_contains _ _ h1]
  rw [replaceAux_of_not_contains _ _ h2]

/-- The summary built for a student carries that student's name. -/
theorem resumoDe_nome (a : StudentRecord) (b : Resumo) (h : resumoDe a = .ok b) :
    b.nome = a.nome_aluno := by
  rcases h1 : mediaField a.frequencias.sum a.frequencias with e | mf <;>
    simp [resumoDe, Bind.bind, Except.bind, Pure.pure, Except.pure, h1] at h
  rcases h2 : mediaField a.frequencias.sum a.notas with e | mn <;> simp [h2] at h
  rw [← h]

/-- A successful aggregation pass yields one summary per record, in order,
each carrying the record's name. -/
theorem mapExcept_resumoDe_nomes :
    ∀ (l : List StudentRecord) (res : List Resumo), mapExcept resumoDe l = .ok res →
      res.map Resumo.nome = l.map StudentRecord.nome_aluno := by
  intro l
  induction l with
  | nil =>
    intro res h
    simp [mapExcept] at h
    simp [← h]
  | cons a as ih =>
    intro res h
    rcases ha : resumoDe a with e | b <;>
      simp [mapExcept, Bind.bind, Except.bind, Pure.pure, Except.pure, ha] at h
    rcases has : mapExcept resumoDe as with e2 | bs <;> simp [has] at h
    simp [← h, resumoDe_nome a b ha, ih bs has]

/-- Claim C1: for every parsed StudentRecord whose attendance sequence sums to
zero, the aggregator reports 0 for both `media_frequencia` and
`media_notas`, regardless of the grades sequence: the grade mean is gated
on the attendance sum, not on the grade sum. -/
theorem zero_attendance_sum_gates_both_means (aluno : StudentRecord)
    (h : aluno.frequencias.sum = 0) :
    resumoDe aluno = .ok ⟨aluno.nome_aluno, 0, 0⟩ := by
  simp [resumoDe, mediaField, h, Bind.bind, Except.bind, Pure.pure, Except.pure]

theorem zero_attendance_sum_gates_both_means_witness :
    (List.sum [(0 : ℚ)] = 0 ∧
      resumoDe ⟨"João Ninguém", [0], [0]⟩ = .ok ⟨"João Ninguém", 0, 0⟩) ∧
    (List.sum [(0 : ℚ)] = 0 ∧
      resumoDe ⟨"a", [0], [50]⟩ = .ok ⟨"a", 0, 0⟩) :=
  ⟨⟨by norm_num, zero_attendance_sum_gates_both_means ⟨"João Ninguém", [0], [0]⟩ (by norm_num)⟩,
   ⟨by norm_num, zero_attendance_sum_gates_both_means ⟨"a", [0], [50]⟩ (by norm_num)⟩⟩

/-- Claim C5: for every parsed StudentRecord whose attendance sequence sums to a
non-zero value (and non-empty grades, as the division requires),
`media_frequencia` is `sum(frequencias)/len(frequencias)` and `media_notas`
is `sum(notas)/len(notas)`, each rounded to 2 decimal places. -/
theorem nonzero_attendance_sum_rounded_means (aluno : StudentRecord)
    (h : aluno.frequencias.sum ≠ 0) (hn : aluno.notas ≠ []) :
    resumoDe aluno = .ok ⟨aluno.nome_aluno,
      pyRound2 (aluno.frequencias.sum / (aluno.frequencias.length : ℚ)),
      pyRound2 (aluno.notas.sum / (aluno.notas.length : ℚ))⟩ := by
  have hf : aluno.frequencias ≠ [] := by
    intro he
    rw [he] at h
    simp at h
  simp [resumoDe, mediaField, h, List.length_eq_zero, hf, hn,
    Bind.bind, Except.bind, Pure.pure, Except.pure]

theorem nonzero_attendance_sum_rounded_means_witness :
    List.sum [(1 : ℚ), 1] ≠ 0 ∧ ([(3 : ℚ), 4] : List ℚ) ≠ [] ∧
    resumoDe ⟨"w", [1, 1], [3, 4]⟩ = .ok ⟨"w",
      pyRound2 (List.sum [(1 : ℚ), 1] / (([(1 : ℚ), 1] : List ℚ).length : ℚ)),
      pyRound2 (List.sum [(3 : ℚ), 4] / (([(3 : ℚ), 4] : List ℚ).length : ℚ))⟩ :=
  ⟨by norm_num, by simp,
   nonzero_attendance_sum_rounded_means ⟨"w", [1, 1], [3, 4]⟩ (by norm_num) (by simp)⟩

/-- Claim C6: for the record with `frequencias = [96,95,90,100,100,100,100]` and
`notas = [85,89,89,80,60,85,86]`, the aggregator produces
`media_frequencia = 97.29` (97.2857... rounded to 2 places) and
`media_notas = 82`. -/
theorem example_record_means :
    resumoDe ⟨"José Ruela", [96, 95, 90, 100, 100, 100, 100], [85, 89, 89, 80, 60, 85, 86]⟩
      = .ok ⟨"José Ruela", (9729 : ℚ) / 100, 82⟩ := by
  norm_num [resumoDe, mediaField, pyRound2, roundHalfEven, Bind.bind, Except.bind,
    Pure.pure, Except.pure]

/-- Claim C3: every exception escaping the `try` body (any pipeline step) is
caught by the handler, which returns status 500 with the single-field
content `[("Erro", message)]`; no exception escapes. -/
theorem catch_all_single_field (arquivo : Arquivo) (eff : Effects) (e : String)
    (w : List String) (h : corpoTry arquivo eff = .error (e, w)) :
    processar_documento arquivo eff = ⟨.jsonError 500 [("Erro", e)], w⟩ := by
  simp [processar_documento, h]

theorem catch_all_single_field_witness :
    corpoTry ⟨"image/png"⟩ effLeituraFalha = .error ("boom", []) ∧
    processar_documento ⟨"image/png"⟩ effLeituraFalha = ⟨.jsonError 500 [("Erro", "boom")], []⟩ :=
  ⟨by decide, catch_all_single_field ⟨"image/png"⟩ effLeituraFalha "boom" [] (by decide)⟩

/-- Claim C4: whenever the external call yields a response with non-200 status,
the handler returns status 500 with the fixed two-field envelope
`[("erro", ERRO_GEMINI), ("detalhe", raw response text)]`, not a raw
exception. -/
theorem non200_fixed_error_envelope (arquivo : Arquivo) (eff : Effects)
    (conteudo : List ℕ) (resposta : RespostaGemini)
    (hr : eff.read_result = .ok conteudo) (hp : eff.post_result = .ok resposta)
    (hs : resposta.status_code ≠ 200) :
    (processar_documento arquivo eff).response =
      .jsonError 500 [("erro", ERRO_GEMINI), ("detalhe", resposta.text)] := by
  simp [processar_documento, corpoTry, lift0, hr, hp, hs,
    Bind.bind, Except.bind, Pure.pure, Except.pure]

theorem non200_fixed_error_envelope_witness :
    effNon200.read_result = .ok [1] ∧
    effNon200.post_result = .ok ⟨429, "Resource has been exhausted", .ok ""⟩ ∧
    ((429 : ℤ) ≠ 200) ∧
    (processar_documento ⟨"image/png"⟩ effNon200).response =
      .jsonError 500 [("erro", ERRO_GEMINI), ("detalhe", "Resource has been exhausted")] :=
  ⟨rfl, rfl, by decide,
   non200_fixed_error_envelope ⟨"image/png"⟩ effNon200 [1]
     ⟨429, "Resource has been exhausted", .ok ""⟩ rfl rfl (by decide)⟩

/-- Claim C9: on a non-200 external response the handler returns the error
envelope immediately: no aggregation result appears and no spreadsheet
write is attempted (the write-attempt list is empty). -/
theorem non200_no_export (arquivo : Arquivo) (eff : Effects)
    (conteudo : List ℕ) (resposta : RespostaGemini)
    (hr : eff.read_result = .ok conteudo) (hp : eff.post_result = .ok resposta)
    (hs : resposta.status_code ≠ 200) :
    processar_documento arquivo eff =
      ⟨.jsonError 500 [("erro", ERRO_GEMINI), ("detalhe", resposta.text)], []⟩ := by
  simp [processar_documento, corpoTry, lift0, hr, hp, hs,
    Bind.bind, Except.bind, Pure.pure, Except.pure]

theorem non200_no_export_witness :
    effNon200b.read_result = .ok [2] ∧
    effNon200b.post_result = .ok ⟨403, "Forbidden", .ok ""⟩ ∧
    ((403 : ℤ) ≠ 200) ∧
    processar_documento ⟨"application/pdf"⟩ effNon200b =
      ⟨.jsonError 500 [("erro", ERRO_GEMINI), ("detalhe", "Forbidden")], []⟩ :=
  ⟨rfl, rfl, by decide,
   non200_no_export ⟨"application/pdf"⟩ effNon200b [2] ⟨403, "Forbidden", .ok ""⟩
     rfl rfl (by decide)⟩

/-- Claim C2: the unwrapper removes the exact literal markers "```json\n" and
"\n```" by substring replacement (the fenced example parses to its body);
any text containing neither exact marker passes through unchanged; and if
the resulting text is not valid JSON, `json.loads` raises and the request
ends as the handled single-field 500 response, not a crash. -/
theorem fence_strip_exact_markers (s : String)
    (h1 : containsSub "```json\n".data s.data = false)
    (h2 : containsSub "\n```".data s.data = false)
    (arquivo : Arquivo) (eff : Effects) (conteudo : List ℕ)
    (resposta : RespostaGemini) (campos m : String)
    (hr : eff.read_result = .ok conteudo) (hp : eff.post_result = .ok resposta)
    (hs : resposta.status_code = 200) (hn : resposta.json_navigate = .ok campos)
    (hl : eff.json_loads (stripMarkdown campos) = .error m) :
    stripMarkdown "```json\n[\x7b\"a\":1\x7d]\n```" = "[\x7b\"a\":1\x7d]" ∧
    stripMarkdown s = s ∧
    (processar_documento arquivo eff).response = .jsonError 500 [("Erro", m)] := by
  refine ⟨by decide, stripMarkdown_of_no_marker s h1 h2, ?_⟩
  simp [processar_documento, corpoTry, lift0, hr, hp, hs, hn, hl,
    Bind.bind, Except.bind, Pure.pure, Except.pure]

theorem fence_strip_exact_markers_witness :
    (containsSub "```json\n".data "no fences".data = false ∧
     containsSub "\n```".data "no fences".data = false ∧
     effLoadsFalha.read_result = .ok [1] ∧
     effLoadsFalha.post_result = .ok ⟨200, "", .ok "oops"⟩ ∧
     effLoadsFalha.json_loads (stripMarkdown "oops") =
       .error "Expecting value: line 1 column 1 (char 0)") ∧
    (stripMarkdown "```json\n[\x7b\"a\":1\x7d]\n```" = "[\x7b\"a\":1\x7d]" ∧
     stripMarkdown "no fences" = "no fences" ∧
     (processar_documento ⟨"image/png"⟩ effLoadsFalha).response =
       .jsonError 500 [("Erro", "Expecting value: line 1 column 1 (char 0)")]) :=
  ⟨⟨by decide, by decide, rfl, rfl, rfl⟩,
   fence_strip_exact_markers "no fences" (by decide) (by decide) ⟨"image/png"⟩
     effLoadsFalha [1] ⟨200, "", .ok "oops"⟩ "oops"
     "Expecting value: line 1 column 1 (char 0)" rfl rfl rfl rfl rfl⟩

/-- Claim C8: the built external request has one content with two parts: an
inline-data part whose media type is the declared string passed through
verbatim (no validation) and whose base64 data decodes back to exactly the
uploaded bytes, and the fixed prompt text part. -/
theorem request_inline_data_roundtrip (conteudo : List ℕ) (ct : String)
    (h : ∀ x ∈ conteudo, x < 256) :
    (montarPayload ct (b64encodeStr conteudo)).contents =
      [[Parte.inline_data ct (b64encodeStr conteudo), Parte.text PROMPT_EXTRACAO]] ∧
    b64decodeStr (b64encodeStr conteudo) = conteudo :=
  ⟨rfl, b64decode_encode conteudo h⟩

theorem request_inline_data_roundtrip_witness :
    (∀ x ∈ [77, 97, 110], x < 256) ∧
    ((montarPayload "image/png" (b64encodeStr [77, 97, 110])).contents =
      [[Parte.inline_data "image/png" (b64encodeStr [77, 97, 110]),
        Parte.text PROMPT_EXTRACAO]] ∧
     b64decodeStr (b64encodeStr [77, 97, 110]) = [77, 97, 110]) :=
  ⟨by decide, request_inline_data_roundtrip [77, 97, 110] "image/png" (by decide)⟩

/-- Claim C7: on success the response is the two-field envelope whose
`dados_brutos` is exactly the parsed record sequence (the `json.loads`
output, untouched by aggregation) and whose `payload` has exactly one
summary per record, in the same order, each carrying the record's name. -/
theorem success_envelope (arquivo : Arquivo) (eff : Effects) (retorno : Retorno)
    (w : List String) (h : processar_documento arquivo eff = ⟨.ok retorno, w⟩) :
    mapExcept resumoDe retorno.dados_brutos = .ok retorno.payload ∧
    retorno.payload.map Resumo.nome = retorno.dados_brutos.map StudentRecord.nome_aluno ∧
    ∃ campos, eff.json_loads (stripMarkdown campos) = .ok retorno.dados_brutos := by
  rcases hr : eff.read_result with e | conteudo
  · simp [processar_documento, corpoTry, lift0, hr, Bind.bind, Except.bind] at h
  rcases hp : eff.post_result with e | resposta
  · simp [processar_documento, corpoTry, lift0, hr, hp, Bind.bind, Except.bind] at h
  by_cases hs : resposta.status_code = 200
  · rcases hn : resposta.json_navigate with e | campos
    · simp [processar_documento, corpoTry, lift0, hr, hp, hs, hn,
        Bind.bind, Except.bind, Pure.pure, Except.pure] at h
    rcases hl : eff.json_loads (stripMarkdown campos) with e | recs
    · simp [processar_documento, corpoTry, lift0, hr, hp, hs, hn, hl,
        Bind.bind, Except.bind, Pure.pure, Except.pure] at h
    rcases hm : mapExcept resumoDe recs with e | sums
    · simp [processar_documento, corpoTry, lift0, hr, hp, hs, hn, hl, hm,
        Bind.bind, Except.bind, Pure.pure, Except.pure] at h
    rcases hw : eff.excel_write with e | u
    · simp [processar_documento, corpoTry, lift0, hr, hp, hs, hn, hl, hm, hw,
        Bind.bind, Except.bind, Pure.pure, Except.pure] at h
    · simp [processar_documento, corpoTry, lift0, hr, hp, hs, hn, hl, hm, hw,
        Bind.bind, Except.bind, Pure.pure, Except.pure] at h
      obtain ⟨hret, -⟩ := h
      subst hret
      exact ⟨hm, mapExcept_resumoDe_nomes recs sums hm, ⟨campos, hl⟩⟩
  · simp [processar_documento, corpoTry, lift0, hr, hp, hs,
      Bind.bind, Except.bind, Pure.pure, Except.pure] at h

theorem success_envelope_witness :
    processar_documento ⟨"image/png"⟩ effSucesso =
      ⟨.ok ⟨[⟨"A", 0, 0⟩], [⟨"A", [0], [0]⟩]⟩, ["/app/notas_alunos_20250101_000000.xlsx"]⟩ ∧
    (mapExcept resumoDe (Retorno.mk [⟨"A", 0, 0⟩] [⟨"A", [0], [0]⟩]).dados_brutos =
        .ok (Retorno.mk [⟨"A", 0, 0⟩] [⟨"A", [0], [0]⟩]).payload ∧
      (Retorno.mk [⟨"A", 0, 0⟩] [⟨"A", [0], [0]⟩]).payload.map Resumo.nome =
        (Retorno.mk [⟨"A", 0, 0⟩] [⟨"A", [0], [0]⟩]).dados_brutos.map StudentRecord.nome_aluno ∧
      ∃ campos, effSucesso.json_loads (stripMarkdown campos) =
        .ok (Retorno.mk [⟨"A", 0, 0⟩] [⟨"A", [0], [0]⟩]).dados_brutos) :=
  ⟨by
    norm_num [processar_documento, corpoTry, lift0, effSucesso, resumoDe, mediaField,
      mapExcept, Bind.bind, Except.bind, Pure.pure, Except.pure]
    rfl,
   success_envelope ⟨"image/png"⟩ effSucesso ⟨[⟨"A", 0, 0⟩], [⟨"A", [0], [0]⟩]⟩
     ["/app/notas_alunos_20250101_000000.xlsx"]
     (by
       norm_num [processar_documento, corpoTry, lift0, effSucesso, resumoDe, mediaField,
         mapExcept, Bind.bind, Except.bind, Pure.pure, Except.pure]
       rfl)⟩

/-- Claim C10 counterexample: two runs with identical uploaded bytes, identical
declared content type, and an identical external response return different
response bodies when the spreadsheet write succeeds in one run and raises
in the other — so the body is not a function of those three inputs alone. -/
theorem response_depends_on_write_outcome :
    effEscritaOk.read_result = effEscritaFalha.read_result ∧
    effEscritaOk.post_result = effEscritaFalha.post_result ∧
    effEscritaOk.json_loads = effEscritaFalha.json_loads ∧
    effEscritaOk.timestamp = effEscritaFalha.timestamp ∧
    (processar_documento ⟨"image/png"⟩ effEscritaOk).response ≠
      (processar_documento ⟨"image/png"⟩ effEscritaFalha).response :=
  ⟨rfl, rfl, rfl, rfl, by decide⟩

/-- Claim C10 (amended): the response body is a deterministic function of the
uploaded bytes, the declared content type, the external response, and the
outcomes of the local I/O steps; the call-time timestamp never affects the
returned body — it only enters the attempted spreadsheet filename. -/
theorem response_independent_of_timestamp (arquivo : Arquivo) (eff : Effects)
    (t1 t2 : String) :
    (processar_documento arquivo { eff with timestamp := t1 }).response =
    (processar_documento arquivo { eff with timestamp := t2 }).response := by
  rcases hr : eff.read_result with e | conteudo
  · simp [processar_documento, corpoTry, lift0, hr, Bind.bind, Except.bind]
  rcases hp : eff.post_result with e | resposta
  · simp [processar_documento, corpoTry, lift0, hr, hp, Bind.bind, Except.bind]
  by_cases hs : resposta.status_code = 200
  · rcases hn : resposta.json_navigate with e | campos
    · simp [processar_documento, corpoTry, lift0, hr, hp, hs, hn,
        Bind.bind, Except.bind, Pure.pure, Except.pure]
    rcases hl : eff.json_loads (stripMarkdown campos) with e | recs
    · simp [processar_documento, corpoTry, lift0, hr, hp, hs, hn, hl,
        Bind.bind, Except.bind, Pure.pure, Except.pure]
    rcases hm : mapExcept resumoDe recs with e | sums
    · simp [processar_documento, corpoTry, lift0, hr, hp, hs, hn, hl, hm,
        Bind.bind, Except.bind, Pure.pure, Except.pure]
    rcases hw : eff.excel_write with e | u
    · simp [processar_documento, corpoTry, lift0, hr, hp, hs, hn, hl, hm, hw,
        Bind.bind, Except.bind, Pure.pure, Except.pure]
    · simp [processar_documento, corpoTry, lift0, hr, hp, hs, hn, hl, hm, hw,
        Bind.bind, Except.bind, Pure.pure, Except.pure]
  · simp [processar_documento, corpoTry, lift0, hr, hp, hs,
      Bind.bind, Except.bind, Pure.pure, Except.pure]
